import Mathlib

/-!
Shallow embedding of `features/FEATURE_BLE/ble/gap/ConnectionParameters.h`
(mbed-os, class `ble::ConnectionParameters`).

The class stores, for each of the three PHYs (1M, 2M, Coded), eight
`uint16_t` parameter series in fixed-size arrays of length 3
(`MAX_PARAM_PHYS`), plus three enabled flags and two scalar fields.
The values are plain `uint16_t` and every operation only assigns or
compares them, so they are modelled as `Nat` (no arithmetic that could
overflow occurs anywhere in the class).

Mutating C++ methods become functions `ConnectionParameters → ... →
ConnectionParameters`; `handlePhyToggle`, which both mutates the object
and returns an index, becomes a function returning a pair.
-/

/-- A fixed array of three cells, one per PHY storage slot, mirroring the
`uint16_t name[MAX_PARAM_PHYS]` members (and `bool _enabledPhy[3]`). -/
structure Vec3 (α : Type) where
  v0 : α
  v1 : α
  v2 : α
deriving DecidableEq

/-- Array read `t[i]`.  In the source every index is in `{0, 1, 2}`; the
fallback for larger indices is never exercised. -/
def Vec3.get {α : Type} (t : Vec3 α) (i : Nat) : α :=
  if i = 0 then t.v0 else if i = 1 then t.v1 else t.v2

/-- Array write `t[i] = x`; same index convention as `Vec3.get`. -/
def Vec3.set {α : Type} (t : Vec3 α) (i : Nat) (x : α) : Vec3 α :=
  if i = 0 then { t with v0 := x } else if i = 1 then { t with v1 := x }
  else { t with v2 := x }

/-- Modelled from the spec: `ble::phy_t` lives in `ble/BLETypes.h`, which is
not part of the sources here.  The spec's data model states the PHY
identifiers are `{PHY_1M, PHY_2M, PHY_CODED}`, "each mapping to a fixed
storage slot index (0,1,2 respectively)". -/
inductive Phy where
  | le1M
  | le2M
  | leCoded
deriving DecidableEq, BEq

/-- Modelled from the spec: `phy_t::value()`, the fixed storage slot index
of a PHY (1M → 0, 2M → 1, Coded → 2). -/
def Phy.value : Phy → Nat
  | .le1M => 0
  | .le2M => 1
  | .leCoded => 2

/-- The state of a `ble::ConnectionParameters` object: the two scalar
fields, the eight per-PHY parameter series and the enabled flags.  The two
scalar enum fields (`scanning_policy_mode_t`, `own_address_type_t`) are
opaque value types from `BLETypes.h`; the class only stores and returns
them, so they are modelled as `Nat` codes. -/
structure ConnectionParameters where
  filterPolicy : Nat
  ownAddressType : Nat
  scanInterval : Vec3 Nat
  scanWindow : Vec3 Nat
  minConnectionInterval : Vec3 Nat
  maxConnectionInterval : Vec3 Nat
  slaveLatency : Vec3 Nat
  connectionSupervisionTimeout : Vec3 Nat
  minEventLength : Vec3 Nat
  maxEventLength : Vec3 Nat
  enabledPhy : Vec3 Bool
deriving DecidableEq

/-- Modelled from the spec: the enum constant
`ble::SCAN_POLICY_IGNORE_WHITELIST` ("ignore filter list", the default
filter policy); its numeric code is irrelevant to every claim. -/
def SCAN_POLICY_IGNORE_WHITELIST : Nat := 0

/-- Modelled from the spec: the enum constant
`ble::own_address_type_t::PUBLIC` (the default address type); its numeric
code is irrelevant to every claim. -/
def OWN_ADDRESS_PUBLIC : Nat := 0

/-- The constructor `ConnectionParameters()`: defaults written by the
`for` loop into all three slots of each series, all PHYs disabled. -/
def initParams : ConnectionParameters :=
  { filterPolicy := SCAN_POLICY_IGNORE_WHITELIST
    ownAddressType := OWN_ADDRESS_PUBLIC
    scanInterval := ⟨4, 4, 4⟩
    scanWindow := ⟨4, 4, 4⟩
    minConnectionInterval := ⟨6, 6, 6⟩
    maxConnectionInterval := ⟨0xC80, 0xC80, 0xC80⟩
    slaveLatency := ⟨0, 0, 0⟩
    connectionSupervisionTimeout := ⟨0xC80, 0xC80, 0xC80⟩
    minEventLength := ⟨0, 0, 0⟩
    maxEventLength := ⟨0xFFFF, 0xFFFF, 0xFFFF⟩
    enabledPhy := ⟨false, false, false⟩ }

/-- `isSwapped()`: 1M enabled, 2M disabled, Coded enabled. -/
def isSwapped (s : ConnectionParameters) : Bool :=
  s.enabledPhy.get Phy.le1M.value && !(s.enabledPhy.get Phy.le2M.value) &&
    s.enabledPhy.get Phy.leCoded.value

/-- `swapCodedAnd2M()`: exchanges the slot-1 (2M) and slot-2 (Coded)
content of the eight series.  Note the source's line
`uint16_t slaveLatency = _maxConnectionInterval[ble::phy_t::LE_2M];`:
the temporary meant to save slot 1's slave latency actually saves slot 1's
maximum connection interval, and that value is what ends up in slot 2's
slave latency cell.  The embedding reproduces this faithfully. -/
def swapCodedAnd2M (s : ConnectionParameters) : ConnectionParameters :=
  let scanInterval := s.scanInterval.get 1
  let scanWindow := s.scanWindow.get 1
  let minConnectionInterval := s.minConnectionInterval.get 1
  let maxConnectionInterval := s.maxConnectionInterval.get 1
  let slaveLatency := s.maxConnectionInterval.get 1
  let connectionSupervisionTimeout := s.connectionSupervisionTimeout.get 1
  let minEventLength := s.minEventLength.get 1
  let maxEventLength := s.maxEventLength.get 1
  { s with
    scanInterval := (s.scanInterval.set 1 (s.scanInterval.get 2)).set 2 scanInterval
    scanWindow := (s.scanWindow.set 1 (s.scanWindow.get 2)).set 2 scanWindow
    minConnectionInterval :=
      (s.minConnectionInterval.set 1 (s.minConnectionInterval.get 2)).set 2 minConnectionInterval
    maxConnectionInterval :=
      (s.maxConnectionInterval.set 1 (s.maxConnectionInterval.get 2)).set 2 maxConnectionInterval
    slaveLatency := (s.slaveLatency.set 1 (s.slaveLatency.get 2)).set 2 slaveLatency
    connectionSupervisionTimeout :=
      (s.connectionSupervisionTimeout.set 1 (s.connectionSupervisionTimeout.get 2)).set 2
        connectionSupervisionTimeout
    minEventLength := (s.minEventLength.set 1 (s.minEventLength.get 2)).set 2 minEventLength
    maxEventLength := (s.maxEventLength.set 1 (s.maxEventLength.get 2)).set 2 maxEventLength }

/-- `handlePhyToggle(phy, enable)`: sets the flag, compares swapped-subset
membership before and after, swaps slot 1 and slot 2 content when the
membership changed, and returns the (swap-corrected) storage index for
`phy` together with the new state. -/
def handlePhyToggle (s : ConnectionParameters) (phy : Phy) (enable : Bool) :
    ConnectionParameters × Nat :=
  let index := phy.value
  let was_swapped := isSwapped s
  let s1 := { s with enabledPhy := s.enabledPhy.set phy.value enable }
  let is_swapped := isSwapped s1
  let s2 := if was_swapped != is_swapped then swapCodedAnd2M s1 else s1
  let index := if is_swapped && (phy == Phy.leCoded) then index - 1 else index
  (s2, index)

/-- `setScanParameters(scanInterval, scanWindow, phy)`. -/
def setScanParameters (s : ConnectionParameters) (scanInterval scanWindow : Nat)
    (phy : Phy) : ConnectionParameters :=
  let p := handlePhyToggle s phy true
  let phy_index := p.2
  { p.1 with
    scanInterval := p.1.scanInterval.set phy_index scanInterval
    scanWindow := p.1.scanWindow.set phy_index scanWindow }

/-- `setConnectionParameters(minConnectionInterval, maxConnectionInterval,
slaveLatency, connectionSupervisionTimeout, phy, minEventLength,
maxEventLength)`, including the `min > max` event-length clamp. -/
def setConnectionParameters (s : ConnectionParameters)
    (minConnectionInterval maxConnectionInterval slaveLatency
      connectionSupervisionTimeout : Nat) (phy : Phy)
    (minEventLength maxEventLength : Nat) : ConnectionParameters :=
  let p := handlePhyToggle s phy true
  let phy_index := p.2
  let minEventLength :=
    if maxEventLength < minEventLength then maxEventLength else minEventLength
  { p.1 with
    minConnectionInterval := p.1.minConnectionInterval.set phy_index minConnectionInterval
    maxConnectionInterval := p.1.maxConnectionInterval.set phy_index maxConnectionInterval
    slaveLatency := p.1.slaveLatency.set phy_index slaveLatency
    connectionSupervisionTimeout :=
      p.1.connectionSupervisionTimeout.set phy_index connectionSupervisionTimeout
    minEventLength := p.1.minEventLength.set phy_index minEventLength
    maxEventLength := p.1.maxEventLength.set phy_index maxEventLength }

/-- `setOwnAddressType(ownAddress)`. -/
def setOwnAddressType (s : ConnectionParameters) (ownAddress : Nat) :
    ConnectionParameters :=
  { s with ownAddressType := ownAddress }

/-- `setFilterPolicy(filterPolicy)`. -/
def setFilterPolicy (s : ConnectionParameters) (filterPolicy : Nat) :
    ConnectionParameters :=
  { s with filterPolicy := filterPolicy }

/-- `togglePhy(phy1M, phy2M, phyCoded)`. -/
def togglePhy (s : ConnectionParameters) (phy1M phy2M phyCoded : Bool) :
    ConnectionParameters :=
  let s1 := (handlePhyToggle s Phy.le1M phy1M).1
  let s2 := (handlePhyToggle s1 Phy.le2M phy2M).1
  (handlePhyToggle s2 Phy.leCoded phyCoded).1

/-- `disablePhy(phy)`. -/
def disablePhy (s : ConnectionParameters) (phy : Phy) : ConnectionParameters :=
  (handlePhyToggle s phy false).1

/-- `enablePhy(phy)`. -/
def enablePhy (s : ConnectionParameters) (phy : Phy) : ConnectionParameters :=
  (handlePhyToggle s phy true).1

/-- `getOwnAddressType()`. -/
def getOwnAddressType (s : ConnectionParameters) : Nat := s.ownAddressType

/-- `getFilterPolicy()`. -/
def getFilterPolicy (s : ConnectionParameters) : Nat := s.filterPolicy

/-- `getNumberOfEnabledPhys()`: sum of `bool * 1` over the three flags. -/
def getNumberOfEnabledPhys (s : ConnectionParameters) : Nat :=
  (if s.enabledPhy.get Phy.le1M.value then 1 else 0) +
    (if s.enabledPhy.get Phy.le2M.value then 1 else 0) +
    (if s.enabledPhy.get Phy.leCoded.value then 1 else 0)

/-- Modelled from the spec: the `ble::phy_set_t` constructor from three
booleans (`BLETypes.h`, not in the sources).  Per the spec, the bitmask
uses "a fixed bit assignment (bit 0 = 1M, bit 1 = 2M, bit 2 = Coded)". -/
def phySetValue (phy1M phy2M phyCoded : Bool) : Nat :=
  (if phy1M then 1 else 0) + (if phy2M then 2 else 0) + (if phyCoded then 4 else 0)

/-- `getPhySet()`: builds a `phy_set_t` from the three enabled flags and
returns its value. -/
def getPhySet (s : ConnectionParameters) : Nat :=
  phySetValue (s.enabledPhy.get Phy.le1M.value) (s.enabledPhy.get Phy.le2M.value)
    (s.enabledPhy.get Phy.leCoded.value)

/-- Modelled from the spec: `MBED_ASSERT(expr)` from `mbed_assert.h` (not
in the sources) halts execution when its condition is false — the spec's
"assertion/fatal abort" — and is a no-op when the condition is true.
Halting is modelled as `none`. -/
def mbedAssert (cond : Bool) : Option Unit :=
  if cond then some () else none

/-- In C, the argument of
`MBED_ASSERT("Trying to use connection parameters without any PHY defined.")`
is a string literal, which decays to a non-null pointer and is therefore a
true condition. -/
def assertArgStringLiteralIsTruthy : Bool := true

/-- `getFirstEnabledIndex()`: first enabled slot; when no PHY is enabled
it runs `MBED_ASSERT` on a string literal and then `return 0`.  `none`
means execution halted in the assert. -/
def getFirstEnabledIndex (s : ConnectionParameters) : Option Nat :=
  if s.enabledPhy.get Phy.le1M.value then some 0
  else if s.enabledPhy.get Phy.le2M.value then some 1
  else if s.enabledPhy.get Phy.leCoded.value then some 2
  else (mbedAssert assertArgStringLiteralIsTruthy).map (fun _ => 0)

/-- Reading `count` consecutive cells of a series starting at slot
`first` — what a caller of the `get...Array()` accessors does, reading
`getNumberOfEnabledPhys()` entries from the returned pointer. -/
def seriesView (t : Vec3 Nat) (first count : Nat) : List Nat :=
  match count with
  | 0 => []
  | n + 1 => t.get first :: seriesView t (first + 1) n

/-- `getScanIntervalArray()` as seen by its caller: the pointer
`&_scanInterval[getFirstEnabledIndex()]` read for
`getNumberOfEnabledPhys()` entries (`none` = halted in the assert). -/
def getScanIntervalArray (s : ConnectionParameters) : Option (List Nat) :=
  (getFirstEnabledIndex s).map (fun first => seriesView s.scanInterval first (getNumberOfEnabledPhys s))

/-- `getScanWindowArray()` as seen by its caller. -/
def getScanWindowArray (s : ConnectionParameters) : Option (List Nat) :=
  (getFirstEnabledIndex s).map (fun first => seriesView s.scanWindow first (getNumberOfEnabledPhys s))

/-- `getMinConnectionIntervalArray()` as seen by its caller. -/
def getMinConnectionIntervalArray (s : ConnectionParameters) : Option (List Nat) :=
  (getFirstEnabledIndex s).map
    (fun first => seriesView s.minConnectionInterval first (getNumberOfEnabledPhys s))

/-- `getMaxConnectionIntervalArray()` as seen by its caller. -/
def getMaxConnectionIntervalArray (s : ConnectionParameters) : Option (List Nat) :=
  (getFirstEnabledIndex s).map
    (fun first => seriesView s.maxConnectionInterval first (getNumberOfEnabledPhys s))

/-- `getSlaveLatencyArray()` as seen by its caller. -/
def getSlaveLatencyArray (s : ConnectionParameters) : Option (List Nat) :=
  (getFirstEnabledIndex s).map
    (fun first => seriesView s.slaveLatency first (getNumberOfEnabledPhys s))

/-- `getConnectionSupervisionTimeoutArray()` as seen by its caller. -/
def getConnectionSupervisionTimeoutArray (s : ConnectionParameters) : Option (List Nat) :=
  (getFirstEnabledIndex s).map
    (fun first => seriesView s.connectionSupervisionTimeout first (getNumberOfEnabledPhys s))

/-- `getMinEventLengthArray()` as seen by its caller. -/
def getMinEventLengthArray (s : ConnectionParameters) : Option (List Nat) :=
  (getFirstEnabledIndex s).map
    (fun first => seriesView s.minEventLength first (getNumberOfEnabledPhys s))

/-- `getMaxEventLengthArray()` as seen by its caller. -/
def getMaxEventLengthArray (s : ConnectionParameters) : Option (List Nat) :=
  (getFirstEnabledIndex s).map
    (fun first => seriesView s.maxEventLength first (getNumberOfEnabledPhys s))

/-- The spec's "index correction": the effective storage index used for
`phy` in state `s` — while in the swapped state the Coded PHY's content
lives at slot 1, not at its nominal slot 2 (the `index -= 1` branch of
`handlePhyToggle`). -/
def swapCorrectedIndex (s : ConnectionParameters) (phy : Phy) : Nat :=
  if isSwapped s && (phy == Phy.leCoded) then phy.value - 1 else phy.value

/-- Slot-wise ordering of the stored event-length bounds: at every slot the
stored minimum connection-event length is at most the stored maximum. -/
def evOrdered (s : ConnectionParameters) : Prop :=
  s.minEventLength.v0 ≤ s.maxEventLength.v0 ∧
    s.minEventLength.v1 ≤ s.maxEventLength.v1 ∧
    s.minEventLength.v2 ≤ s.maxEventLength.v2

/-- One call to a public mutating method of `ConnectionParameters`. -/
inductive Op where
  | setScan (scanInterval scanWindow : Nat) (phy : Phy)
  | setConn (minConnectionInterval maxConnectionInterval slaveLatency
      connectionSupervisionTimeout : Nat) (phy : Phy) (minEventLength maxEventLength : Nat)
  | setOwnAddr (ownAddress : Nat)
  | setFilter (filterPolicy : Nat)
  | toggle (phy1M phy2M phyCoded : Bool)
  | disable (phy : Phy)
  | enable (phy : Phy)

/-- Interpretation of one public mutating call. -/
def runOp (s : ConnectionParameters) : Op → ConnectionParameters
  | .setScan a b phy => setScanParameters s a b phy
  | .setConn ci xi l t phy e f => setConnectionParameters s ci xi l t phy e f
  | .setOwnAddr a => setOwnAddressType s a
  | .setFilter f => setFilterPolicy s f
  | .toggle p1 p2 pc => togglePhy s p1 p2 pc
  | .disable phy => disablePhy s phy
  | .enable phy => enablePhy s phy

/-- The states a `ConnectionParameters` object can be in: freshly
constructed, or the result of any public mutating call on a reachable
state. -/
inductive Reachable : ConnectionParameters → Prop where
  | init : Reachable initParams
  | step {s : ConnectionParameters} (op : Op) : Reachable s → Reachable (runOp s op)

/-- The run of claim C2 before the toggle pair: {1M, Coded} enabled (the
swapped subset) and Coded's connection parameters set with slave latency 5
and maximum connection interval 10. -/
def c2Before : ConnectionParameters :=
  setConnectionParameters (enablePhy (enablePhy initParams Phy.le1M) Phy.leCoded)
    6 10 5 100 Phy.leCoded 0 0xFFFF

/-- The run of claim C2 after toggling Coded off and back on without
touching any stored value. -/
def c2After : ConnectionParameters :=
  enablePhy (disablePhy c2Before Phy.leCoded) Phy.leCoded

/-- The configuration runs of claim C6: enable exactly {1M, Coded} and set
every series of both PHYs.  `ord` picks which PHY is configured first;
`pre` additionally toggles both PHYs on (in the same order) before any
series setter runs. -/
def c6Setup (ord pre : Bool)
    (si1 sw1 ci1 xi1 l1 t1 e1 f1 sic swc cic xic lc tc ec fc : Nat) :
    ConnectionParameters :=
  let conf1M := fun s => setConnectionParameters (setScanParameters s si1 sw1 Phy.le1M)
    ci1 xi1 l1 t1 Phy.le1M e1 f1
  let confC := fun s => setConnectionParameters (setScanParameters s sic swc Phy.leCoded)
    cic xic lc tc Phy.leCoded ec fc
  let base := if pre then
      (if ord then enablePhy (enablePhy initParams Phy.le1M) Phy.leCoded
        else enablePhy (enablePhy initParams Phy.leCoded) Phy.le1M)
    else initParams
  if ord then confC (conf1M base) else conf1M (confC base)

/-! Helper lemmas. -/

@[simp]
theorem Vec3.get_set_self {α : Type} (t : Vec3 α) (i : Nat) (x : α) :
    (t.set i x).get i = x := by
  unfold Vec3.get Vec3.set
  by_cases h0 : i = 0 <;> by_cases h1 : i = 1 <;> simp_all

@[simp]
theorem isSwapped_swapCodedAnd2M (s : ConnectionParameters) :
    isSwapped (swapCodedAnd2M s) = isSwapped s := rfl

theorem handlePhyToggle_snd (s : ConnectionParameters) (phy : Phy) (e : Bool) :
    (handlePhyToggle s phy e).2 = swapCorrectedIndex (handlePhyToggle s phy e).1 phy := by
  unfold handlePhyToggle swapCorrectedIndex
  dsimp only
  by_cases hc :
      (isSwapped s != isSwapped { s with enabledPhy := s.enabledPhy.set phy.value e }) = true
  · rw [if_pos hc, isSwapped_swapCodedAnd2M]
  · rw [if_neg hc]

theorem evOrdered_swapCodedAnd2M {s : ConnectionParameters} (h : evOrdered s) :
    evOrdered (swapCodedAnd2M s) :=
  ⟨h.1, h.2.2, h.2.1⟩

theorem evOrdered_handlePhyToggle {s : ConnectionParameters} (phy : Phy) (e : Bool)
    (h : evOrdered s) : evOrdered (handlePhyToggle s phy e).1 := by
  unfold handlePhyToggle
  dsimp only
  split
  · exact evOrdered_swapCodedAnd2M h
  · exact h

theorem evOrdered_writeConn (t : ConnectionParameters) (i a b c1 c2 c3 c4 : Nat)
    (hab : a ≤ b) (h : evOrdered t) :
    evOrdered
      { t with
        minConnectionInterval := t.minConnectionInterval.set i c1
        maxConnectionInterval := t.maxConnectionInterval.set i c2
        slaveLatency := t.slaveLatency.set i c3
        connectionSupervisionTimeout := t.connectionSupervisionTimeout.set i c4
        minEventLength := t.minEventLength.set i a
        maxEventLength := t.maxEventLength.set i b } := by
  obtain ⟨h0, h1, h2⟩ := h
  unfold evOrdered Vec3.set
  by_cases hi0 : i = 0 <;> by_cases hi1 : i = 1 <;> simp_all

theorem evOrdered_setScanParameters {s : ConnectionParameters} (a b : Nat) (phy : Phy)
    (h : evOrdered s) : evOrdered (setScanParameters s a b phy) :=
  evOrdered_handlePhyToggle phy true h

theorem evOrdered_setConnectionParameters {s : ConnectionParameters}
    (ci xi l t : Nat) (phy : Phy) (e f : Nat) (h : evOrdered s) :
    evOrdered (setConnectionParameters s ci xi l t phy e f) := by
  have hp : evOrdered (handlePhyToggle s phy true).1 := evOrdered_handlePhyToggle phy true h
  have hab : (if f < e then f else e) ≤ f := by
    split
    · exact Nat.le_refl f
    · exact Nat.le_of_not_lt (by assumption)
  exact evOrdered_writeConn (handlePhyToggle s phy true).1 (handlePhyToggle s phy true).2
    (if f < e then f else e) f ci xi l t hab hp

theorem evOrdered_runOp {s : ConnectionParameters} (op : Op) (h : evOrdered s) :
    evOrdered (runOp s op) := by
  cases op with
  | setScan a b phy => exact evOrdered_setScanParameters a b phy h
  | setConn ci xi l t phy e f => exact evOrdered_setConnectionParameters ci xi l t phy e f h
  | setOwnAddr a => exact h
  | setFilter f => exact h
  | toggle p1 p2 pc =>
      exact evOrdered_handlePhyToggle _ _ (evOrdered_handlePhyToggle _ _
        (evOrdered_handlePhyToggle _ _ h))
  | disable phy => exact evOrdered_handlePhyToggle phy false h
  | enable phy => exact evOrdered_handlePhyToggle phy true h

theorem evOrdered_reachable {s : ConnectionParameters} (hs : Reachable s) : evOrdered s := by
  induction hs with
  | init => unfold evOrdered; decide
  | step op _ ih => exact evOrdered_runOp op ih

/-! Claim theorems. -/

/-- Claim C1: the compaction invariant fails on the code.  Starting from the
constructor state — every slot's slave latency is 0 and no setter is ever
called — the toggle sequence enable 1M, enable Coded, enable 2M enters and
then leaves the swapped subset.  All three PHYs end up enabled, so the
compacted slave-latency view should read [0, 0, 0]; instead the botched
swap temporary (`slaveLatency` saved from `_maxConnectionInterval`) leaves
0xC80 in slots 1 and 2. -/
theorem compactedView_slaveLatency_corrupted :
    (initParams.slaveLatency = ⟨0, 0, 0⟩) ∧
      (getNumberOfEnabledPhys
          (enablePhy (enablePhy (enablePhy initParams Phy.le1M) Phy.leCoded) Phy.le2M) = 3) ∧
      (getSlaveLatencyArray
          (enablePhy (enablePhy (enablePhy initParams Phy.le1M) Phy.leCoded) Phy.le2M)
        = some [0, 0xC80, 0xC80]) ∧
      (getSlaveLatencyArray
          (enablePhy (enablePhy (enablePhy initParams Phy.le1M) Phy.leCoded) Phy.le2M)
        ≠ some [0, 0, 0]) := by decide

/-- Claim C2: the off/on toggle round trip is not a no-op on the compacted view.
With {1M, Coded} enabled (the swapped subset) and Coded's parameters set to
slave latency 5 and maximum connection interval 10, toggling Coded off and
back on changes the compacted slave-latency view from [0, 5] to [0, 10]:
each swap saves `_maxConnectionInterval[LE_2M]` into the slave-latency
temporary, so the pair of swaps is not self-inverse on that series. -/
theorem toggle_off_on_changes_compactedView :
    c2Before.enabledPhy = c2After.enabledPhy ∧
      getSlaveLatencyArray c2Before = some [0, 5] ∧
      getSlaveLatencyArray c2After = some [0, 10] ∧
      getSlaveLatencyArray c2After ≠ getSlaveLatencyArray c2Before := by decide

/-- Claim C3: with zero PHYs enabled the accessors do not halt.
`getFirstEnabledIndex` runs `MBED_ASSERT` on a string literal, whose
condition is a non-null pointer and hence true, so the assert passes and
the function returns index 0; a series accessor then returns normally
(an empty view, since `getNumberOfEnabledPhys` is 0). -/
theorem zero_phys_accessor_returns_normally :
    getNumberOfEnabledPhys initParams = 0 ∧
      getFirstEnabledIndex initParams = some 0 ∧
      getFirstEnabledIndex initParams ≠ none ∧
      getScanIntervalArray initParams = some [] := by decide

/-- Claim C5: `getPhySet` is the sum of `1 <<< slot` over the enabled PHYs'
fixed slot indices (bit 0 = 1M, bit 1 = 2M, bit 2 = Coded), and the
slot-content swap does not change it. -/
theorem getPhySet_bitmask (s : ConnectionParameters) :
    (getPhySet s =
        (if s.enabledPhy.get 0 then 1 <<< 0 else 0) +
          (if s.enabledPhy.get 1 then 1 <<< 1 else 0) +
          (if s.enabledPhy.get 2 then 1 <<< 2 else 0)) ∧
      getPhySet (swapCodedAnd2M s) = getPhySet s :=
  ⟨rfl, rfl⟩

/-- Claim C9: in every reachable state, at every slot the stored minimum
connection-event length is at most the stored maximum: the constructor
establishes it (0 ≤ 0xFFFF), the event-length clamp in
`setConnectionParameters` maintains it, and `swapCodedAnd2M` moves the
two event-length cells of a slot together. -/
theorem reachable_minEventLength_le_maxEventLength (s : ConnectionParameters)
    (hs : Reachable s) (i : Nat) (hi : i < 3) :
    s.minEventLength.get i ≤ s.maxEventLength.get i := by
  obtain ⟨h0, h1, h2⟩ := evOrdered_reachable hs
  interval_cases i
  · exact h0
  · exact h1
  · exact h2

/-- Witness for C9 at the constructor state and slot 0. -/
theorem reachable_minEventLength_le_maxEventLength_witness :
    Reachable initParams ∧ (0 : Nat) < 3 ∧
      initParams.minEventLength.get 0 ≤ initParams.maxEventLength.get 0 :=
  ⟨Reachable.init, by decide,
    reachable_minEventLength_le_maxEventLength initParams Reachable.init 0 (by decide)⟩

/-- Claim C10: toggling a PHY to the value its flag already has leaves the whole
object unchanged: the flag write is the identity, swapped-subset
membership cannot change, so no swap runs and no parameter cell moves. -/
theorem toggle_same_value_noop (s : ConnectionParameters) (phy : Phy) :
    (s.enabledPhy.get phy.value = true → enablePhy s phy = s) ∧
    (s.enabledPhy.get phy.value = false → disablePhy s phy = s) := by
  obtain ⟨fp, oa, si, sw, ni, xi, sl, st, ne, xe, ⟨e0, e1, e2⟩⟩ := s
  constructor <;> intro h <;> cases phy <;> cases e0 <;> cases e1 <;> cases e2 <;>
    first
      | rfl
      | (exfalso; simp [Vec3.get, Phy.value] at h)

/-- Witness for C10: enabling an enabled PHY and disabling a disabled PHY
at concrete states. -/
theorem toggle_same_value_noop_witness :
    enablePhy (enablePhy initParams Phy.le1M) Phy.le1M = enablePhy initParams Phy.le1M ∧
      disablePhy initParams Phy.le2M = initParams :=
  ⟨(toggle_same_value_noop (enablePhy initParams Phy.le1M) Phy.le1M).1 (by decide),
    (toggle_same_value_noop initParams Phy.le2M).2 (by decide)⟩

/-- Claim C4: when the requested minimum event length exceeds the requested
maximum, `setConnectionParameters` silently stores min = max = requested
maximum at the written slot (the accepting function is total — no error
path exists). -/
theorem setConnectionParameters_clamps_eventLength (s : ConnectionParameters)
    (phy : Phy) (ci xi l t e f : Nat) (h : f < e) :
    (setConnectionParameters s ci xi l t phy e f).minEventLength.get
        (swapCorrectedIndex (enablePhy s phy) phy) = f ∧
      (setConnectionParameters s ci xi l t phy e f).maxEventLength.get
        (swapCorrectedIndex (enablePhy s phy) phy) = f := by
  simp only [enablePhy]
  rw [← handlePhyToggle_snd]
  unfold setConnectionParameters
  dsimp only
  constructor
  · rw [Vec3.get_set_self, if_pos h]
  · rw [Vec3.get_set_self]

/-- Witness for C4: `minEventLength = 100, maxEventLength = 50` stores
min = 50 and max = 50. -/
theorem setConnectionParameters_clamps_eventLength_witness :
    50 < 100 ∧
      ((setConnectionParameters initParams 6 3200 0 3200 Phy.le1M 100 50).minEventLength.get
            (swapCorrectedIndex (enablePhy initParams Phy.le1M) Phy.le1M) = 50 ∧
        (setConnectionParameters initParams 6 3200 0 3200 Phy.le1M 100 50).maxEventLength.get
            (swapCorrectedIndex (enablePhy initParams Phy.le1M) Phy.le1M) = 50) :=
  ⟨by decide,
    setConnectionParameters_clamps_eventLength initParams Phy.le1M 6 3200 0 3200 100 50
      (by decide)⟩

/-- Claim C8: the connection-interval pair is stored exactly as requested even
when the requested minimum exceeds the requested maximum — the min > max
clamp touches only the event-length pair. -/
theorem setConnectionParameters_keeps_connectionInterval (s : ConnectionParameters)
    (phy : Phy) (ci xi l t e f : Nat) (h : xi < ci) :
    (setConnectionParameters s ci xi l t phy e f).minConnectionInterval.get
        (swapCorrectedIndex (enablePhy s phy) phy) = ci ∧
      (setConnectionParameters s ci xi l t phy e f).maxConnectionInterval.get
        (swapCorrectedIndex (enablePhy s phy) phy) = xi := by
  simp only [enablePhy]
  rw [← handlePhyToggle_snd]
  unfold setConnectionParameters
  dsimp only
  constructor
  · rw [Vec3.get_set_self]
  · rw [Vec3.get_set_self]

/-- Witness for C8: an inverted connection-interval pair (min 100, max 50)
is stored unmodified. -/
theorem setConnectionParameters_keeps_connectionInterval_witness :
    50 < 100 ∧
      ((setConnectionParameters initParams 100 50 0 3200 Phy.le1M 0 0xFFFF).minConnectionInterval.get
            (swapCorrectedIndex (enablePhy initParams Phy.le1M) Phy.le1M) = 100 ∧
        (setConnectionParameters initParams 100 50 0 3200 Phy.le1M 0 0xFFFF).maxConnectionInterval.get
            (swapCorrectedIndex (enablePhy initParams Phy.le1M) Phy.le1M) = 50) :=
  ⟨by decide,
    setConnectionParameters_keeps_connectionInterval initParams Phy.le1M 100 50 0 3200 0 0xFFFF
      (by decide)⟩

/-- Claim C7: each series setter is exactly "toggle the PHY on, then write the
given values at the swap-corrected slot of that PHY": the resulting state
equals the state after `enablePhy` with only the setter's own series
changed, written at `swapCorrectedIndex`. -/
theorem series_setters_enable_and_write (s : ConnectionParameters) (phy : Phy)
    (a b ci xi l t e f : Nat) (h : e ≤ f) :
    (setScanParameters s a b phy =
        { enablePhy s phy with
          scanInterval := (enablePhy s phy).scanInterval.set
            (swapCorrectedIndex (enablePhy s phy) phy) a
          scanWindow := (enablePhy s phy).scanWindow.set
            (swapCorrectedIndex (enablePhy s phy) phy) b }) ∧
      (setConnectionParameters s ci xi l t phy e f =
        { enablePhy s phy with
          minConnectionInterval := (enablePhy s phy).minConnectionInterval.set
            (swapCorrectedIndex (enablePhy s phy) phy) ci
          maxConnectionInterval := (enablePhy s phy).maxConnectionInterval.set
            (swapCorrectedIndex (enablePhy s phy) phy) xi
          slaveLatency := (enablePhy s phy).slaveLatency.set
            (swapCorrectedIndex (enablePhy s phy) phy) l
          connectionSupervisionTimeout := (enablePhy s phy).connectionSupervisionTimeout.set
            (swapCorrectedIndex (enablePhy s phy) phy) t
          minEventLength := (enablePhy s phy).minEventLength.set
            (swapCorrectedIndex (enablePhy s phy) phy) e
          maxEventLength := (enablePhy s phy).maxEventLength.set
            (swapCorrectedIndex (enablePhy s phy) phy) f }) := by
  simp only [enablePhy]
  rw [← handlePhyToggle_snd]
  constructor
  · rfl
  · unfold setConnectionParameters
    dsimp only
    rw [if_neg (Nat.not_lt.mpr h)]

/-- Witness for C7 at concrete inputs (Coded PHY on the constructor
state). -/
theorem series_setters_enable_and_write_witness :
    3 ≤ 4 ∧
      ((setScanParameters initParams 1 2 Phy.leCoded =
          { enablePhy initParams Phy.leCoded with
            scanInterval := (enablePhy initParams Phy.leCoded).scanInterval.set
              (swapCorrectedIndex (enablePhy initParams Phy.leCoded) Phy.leCoded) 1
            scanWindow := (enablePhy initParams Phy.leCoded).scanWindow.set
              (swapCorrectedIndex (enablePhy initParams Phy.leCoded) Phy.leCoded) 2 }) ∧
        (setConnectionParameters initParams 5 6 7 8 Phy.leCoded 3 4 =
          { enablePhy initParams Phy.leCoded with
            minConnectionInterval := (enablePhy initParams Phy.leCoded).minConnectionInterval.set
              (swapCorrectedIndex (enablePhy initParams Phy.leCoded) Phy.leCoded) 5
            maxConnectionInterval := (enablePhy initParams Phy.leCoded).maxConnectionInterval.set
              (swapCorrectedIndex (enablePhy initParams Phy.leCoded) Phy.leCoded) 6
            slaveLatency := (enablePhy initParams Phy.leCoded).slaveLatency.set
              (swapCorrectedIndex (enablePhy initParams Phy.leCoded) Phy.leCoded) 7
            connectionSupervisionTimeout :=
              (enablePhy initParams Phy.leCoded).connectionSupervisionTimeout.set
                (swapCorrectedIndex (enablePhy initParams Phy.leCoded) Phy.leCoded) 8
            minEventLength := (enablePhy initParams Phy.leCoded).minEventLength.set
              (swapCorrectedIndex (enablePhy initParams Phy.leCoded) Phy.leCoded) 3
            maxEventLength := (enablePhy initParams Phy.leCoded).maxEventLength.set
              (swapCorrectedIndex (enablePhy initParams Phy.leCoded) Phy.leCoded) 4 })) :=
  ⟨by decide, series_setters_enable_and_write initParams Phy.leCoded 1 2 5 6 7 8 3 4 (by decide)⟩

/-- Claim C6: enabling exactly {1M, Coded} — in either order, with or without
explicit enable toggles before the series setters — and then setting each
PHY's eight parameters yields a compacted view of length 2 whose entry 0
holds the 1M values and entry 1 the Coded values, for every series. -/
theorem enable_1M_coded_compacted_view (ord pre : Bool)
    (si1 sw1 ci1 xi1 l1 t1 e1 f1 sic swc cic xic lc tc ec fc : Nat)
    (h1 : e1 ≤ f1) (hc : ec ≤ fc) :
    getNumberOfEnabledPhys (c6Setup ord pre si1 sw1 ci1 xi1 l1 t1 e1 f1 sic swc cic xic lc tc ec fc) = 2 ∧
      getFirstEnabledIndex (c6Setup ord pre si1 sw1 ci1 xi1 l1 t1 e1 f1 sic swc cic xic lc tc ec fc) = some 0 ∧
      getScanIntervalArray (c6Setup ord pre si1 sw1 ci1 xi1 l1 t1 e1 f1 sic swc cic xic lc tc ec fc) = some [si1, sic] ∧
      getScanWindowArray (c6Setup ord pre si1 sw1 ci1 xi1 l1 t1 e1 f1 sic swc cic xic lc tc ec fc) = some [sw1, swc] ∧
      getMinConnectionIntervalArray (c6Setup ord pre si1 sw1 ci1 xi1 l1 t1 e1 f1 sic swc cic xic lc tc ec fc) = some [ci1, cic] ∧
      getMaxConnectionIntervalArray (c6Setup ord pre si1 sw1 ci1 xi1 l1 t1 e1 f1 sic swc cic xic lc tc ec fc) = some [xi1, xic] ∧
      getSlaveLatencyArray (c6Setup ord pre si1 sw1 ci1 xi1 l1 t1 e1 f1 sic swc cic xic lc tc ec fc) = some [l1, lc] ∧
      getConnectionSupervisionTimeoutArray (c6Setup ord pre si1 sw1 ci1 xi1 l1 t1 e1 f1 sic swc cic xic lc tc ec fc) = some [t1, tc] ∧
      getMinEventLengthArray (c6Setup ord pre si1 sw1 ci1 xi1 l1 t1 e1 f1 sic swc cic xic lc tc ec fc) = some [e1, ec] ∧
      getMaxEventLengthArray (c6Setup ord pre si1 sw1 ci1 xi1 l1 t1 e1 f1 sic swc cic xic lc tc ec fc) = some [f1, fc] := by
  have h1' := Nat.not_lt.mpr h1
  have hc' := Nat.not_lt.mpr hc
  have hb1 : (Phy.le1M == Phy.leCoded) = false := rfl
  have hb2 : (Phy.le2M == Phy.leCoded) = false := rfl
  have hb3 : (Phy.leCoded == Phy.leCoded) = true := rfl
  cases ord <;> cases pre <;>
    simp [c6Setup, hb1, hb2, hb3, setScanParameters, setConnectionParameters, enablePhy, handlePhyToggle,
      isSwapped, swapCodedAnd2M, Vec3.get, Vec3.set, initParams, getNumberOfEnabledPhys,
      getFirstEnabledIndex, getScanIntervalArray, getScanWindowArray,
      getMinConnectionIntervalArray, getMaxConnectionIntervalArray, getSlaveLatencyArray,
      getConnectionSupervisionTimeoutArray, getMinEventLengthArray, getMaxEventLengthArray,
      seriesView, Phy.value, mbedAssert, assertArgStringLiteralIsTruthy, h1', hc']

/-- Witness for C6 at concrete inputs (setters only, 1M first). -/
theorem enable_1M_coded_compacted_view_witness :
    11 ≤ 12 ∧ 21 ≤ 22 ∧
      (getNumberOfEnabledPhys
          (setConnectionParameters
            (setScanParameters
              (setConnectionParameters (setScanParameters initParams 7 8 Phy.le1M)
                9 10 13 14 Phy.le1M 11 12)
              17 18 Phy.leCoded)
            19 20 23 24 Phy.leCoded 21 22) = 2 ∧
        getScanIntervalArray
          (setConnectionParameters
            (setScanParameters
              (setConnectionParameters (setScanParameters initParams 7 8 Phy.le1M)
                9 10 13 14 Phy.le1M 11 12)
              17 18 Phy.leCoded)
            19 20 23 24 Phy.leCoded 21 22) = some [7, 17]) := by
  refine ⟨by decide, by decide, ?_, ?_⟩
  · exact (enable_1M_coded_compacted_view true false 7 8 9 10 13 14 11 12 17 18 19 20 23 24
      21 22 (by decide) (by decide)).1
  · exact (enable_1M_coded_compacted_view true false 7 8 9 10 13 14 11 12 17 18 19 20 23 24
      21 22 (by decide) (by decide)).2.2.1
